import Mathlib

/-!
Verification development for the shortshake market-scanning and trading
pipeline.  The TypeScript sources are shallowly embedded over ℚ: every
JavaScript `number` is modelled as a rational (`Number.isFinite` checks are
vacuously true in this model and noted where they occur), transcendental
primitives (`Math.exp`, `Math.sqrt`, `Math.tanh`, `Math.log`) are passed as
oracle parameters, and asynchronous exchange calls that only mirror local
state are dropped.  Stateful handlers become pure state transformers;
`closePosition` (deleting the managed entry) is modelled by returning `none`.
-/

namespace Shortshake

/-- JS-style clamp from the sources (`clamp(value, min, max)`); the NaN branch
of the source cannot arise over ℚ. -/
def clamp (value lo hi : ℚ) : ℚ :=
  if value < lo then lo else if value > hi then hi else value

/-- `Math.sign` over ℚ. -/
def qsign (x : ℚ) : ℚ :=
  if 0 < x then 1 else if x < 0 then -1 else 0

/-! ## Strategy engine embedding (src/src/trading/strategy.service.ts)

`SymbolTimeframeMetric` as consumed by the strategy: fields that the
TypeScript reads through `??`-defaults or truthiness checks are `Option ℚ`;
the bounded history arrays are plain lists. -/

structure STFMetric where
  netChange : Option ℚ := none
  chop : Option ℚ := none
  efficiency : Option ℚ := none
  align : Option ℚ := none
  volumeBoost : Option ℚ := none
  flowBoost : Option ℚ := none
  activeFlow : Option ℚ := none
  flowImmediateBase : Option ℚ := none
  smallMoveGate : Option ℚ := none
  momentumAtr : Option ℚ := none
  atrValue : Option ℚ := none
  latestClose : Option ℚ := none
  highestClose : Option ℚ := none
  lowestClose : Option ℚ := none
  closeHistory : List ℚ := []
  efficiencyHistory : List ℚ := []
  momentumHistory : List ℚ := []
deriving Repr, DecidableEq

inductive Direction where
  | long
  | short
deriving Repr, DecidableEq

/-- The `dirSign` idiom `direction === 'LONG' ? 1 : -1`. -/
def Direction.sign : Direction → ℚ
  | .long => 1
  | .short => -1

/-- `ManagedPositionState` (bookkeeping-only fields such as symbol, timeframe
labels, metric snapshots and the live-tick plumbing are omitted; the
timeframe labels only feed the constant `timeframeMinutes` lookup, whose
result is stored in `parentMinutes`/`childMinutes`). -/
structure MPState where
  direction : Direction
  entryPrice : ℚ
  baseQuantity : ℚ
  totalQuantity : ℚ
  kSl : ℚ
  slDistance : ℚ
  initialSlDistance : ℚ
  stopPrice : ℚ
  trailAtrMultiple : ℚ
  cleanScore : ℚ
  gateScore : ℚ
  openedAt : ℚ
  addCount : ℕ
  beMoved : Bool
  highestPrice : Option ℚ
  lowestPrice : Option ℚ
  trailPrice : Option ℚ
  partialOneTaken : Bool
  partialTwoTaken : Bool
  timeStopStage : ℕ
  timeStopTimestamp : Option ℚ
  structureBreakCounter : ℕ
  parentAtr : Option ℚ
  childAtr : Option ℚ
  riskAmount : ℚ
  parentMinutes : ℚ
  childMinutes : ℚ
  maxR : ℚ
  lastPrice : Option ℚ
deriving Repr, DecidableEq

/-- The quantity epsilon `1e-6`. -/
def qEps : ℚ := 1 / 1000000

/-- `signedTrend`: `(1 - (chop ?? 1)) * 100 * Math.sign(netChange ?? 0)`. -/
def signedTrend (m : STFMetric) : ℚ :=
  ((1 - m.chop.getD 1) * 100) * qsign (m.netChange.getD 0)

structure Scores where
  trend : ℚ
  efficiency : ℚ
  align : ℚ
  volume : ℚ
  flow : ℚ
deriving Repr, DecidableEq

/-- `computeScores`; the flow fallback chain is
`flowBoost ?? activeFlow ?? flowImmediateBase ?? 0.5`. -/
def computeScores (m : STFMetric) : Scores where
  trend := |signedTrend m|
  efficiency := m.efficiency.getD 0 * 100
  align := m.align.getD (1/2) * 100
  volume := m.volumeBoost.getD (1/2) * 100
  flow := ((m.flowBoost.or (m.activeFlow.or m.flowImmediateBase)).getD (1/2)) * 100

/-- `computeTrailAtr`: `clamp(2.0 + 1.2 * cleanP - 0.6 * (1 - gateC), 1.6, 3.2)`. -/
def computeTrailAtr (cleanP gateC : ℚ) : ℚ :=
  clamp (2 + (12/10) * cleanP - (6/10) * (1 - gateC)) (16/10) (32/10)

/-- Adjacent non-increase check used by `isDegrading`. -/
def chainNonIncreasing : List ℚ → Bool
  | [] => true
  | [_] => true
  | a :: b :: rest => if b > a then false else chainNonIncreasing (b :: rest)

/-- `isDegrading`: last 10 samples monotonically non-increasing. -/
def isDegrading (series : List ℚ) : Bool :=
  if series.length < 10 then false
  else chainNonIncreasing (series.drop (series.length - 10))

/-- `isMomentumTurning`: over the last 3 samples, `slice[2] - slice[0] < 0`. -/
def isMomentumTurning (series : List ℚ) : Bool :=
  if series.length < 3 then false
  else
    match series.drop (series.length - 3) with
    | [x, _, z] => decide (z - x < 0)
    | _ => false

/-- `calculateRMultiple`; `initialSlDistance || slDistance` is the JS
falsy-fallback, i.e. `slDistance` is used when `initialSlDistance = 0`. -/
def calculateRMultiple (s : MPState) (currentPrice : ℚ) : ℚ :=
  let baseDistance := if s.initialSlDistance = 0 then s.slDistance else s.initialSlDistance
  if baseDistance ≤ 0 then 0
  else s.direction.sign * (currentPrice - s.entryPrice) / baseDistance

/-- `handleBreakEvenMove`. -/
def handleBreakEvenMove (s : MPState) (childMetric : STFMetric) (currentPrice : ℚ) :
    MPState :=
  if s.beMoved ∨ s.slDistance ≤ 0 then s
  else
    let cs := computeScores childMetric
    let threshold : ℚ := if cs.volume ≥ 55 ∧ cs.flow ≥ 55 then 1 else 13/10
    if s.maxR < threshold then s
    else
      let newStop :=
        match s.direction with
        | .long => min s.entryPrice (currentPrice - (5/10000) * currentPrice)
        | .short => max s.entryPrice (currentPrice + (5/10000) * currentPrice)
      { s with
        stopPrice := newStop
        slDistance := |newStop - s.entryPrice|
        beMoved := true
        riskAmount := s.totalQuantity * |newStop - s.entryPrice| }

/-- `moveStopToBreakEven` (the partial-exit path to break-even). -/
def moveStopToBreakEven (s : MPState) (currentPrice : ℚ) : MPState :=
  if s.beMoved ∨ s.slDistance ≤ 0 ∨ s.totalQuantity ≤ qEps then s
  else
    let newStop :=
      match s.direction with
      | .long => min s.entryPrice (currentPrice - (5/10000) * currentPrice)
      | .short => max s.entryPrice (currentPrice + (5/10000) * currentPrice)
    { s with
      stopPrice := newStop
      slDistance := |newStop - s.entryPrice|
      beMoved := true
      riskAmount := s.totalQuantity * |newStop - s.entryPrice| }

/-- The trailing multiple of `handleTrailingStop`: `computeTrailAtr`
optionally reduced by 0.4 (floored at 1.6) on degrading efficiency or turning
momentum. -/
def trailMultipleFor (s : MPState) (childMetric : STFMetric) : ℚ :=
  if isDegrading childMetric.efficiencyHistory ∨
      isMomentumTurning childMetric.momentumHistory then
    max (16/10) (computeTrailAtr s.cleanScore s.gateScore - 4/10)
  else computeTrailAtr s.cleanScore s.gateScore

/-- The state mutation applied when a trailing update fires:
`trailPrice`/`stopPrice` become the new trail and `slDistance`/`riskAmount`
are recomputed. -/
def applyTrail (s : MPState) (newTrail : ℚ) : MPState :=
  { s with
    trailPrice := some newTrail
    stopPrice := newTrail
    slDistance := |newTrail - s.entryPrice|
    riskAmount := s.totalQuantity * |newTrail - s.entryPrice| }

/-- LONG candidate trail: `max(parent.highestClose ?? cur, state.highestPrice ?? cur) − trail·parentAtr`. -/
def trailNewLong (s : MPState) (parentMetric childMetric : STFMetric) (cur : ℚ) : ℚ :=
  max (parentMetric.highestClose.getD cur) (s.highestPrice.getD cur) -
    trailMultipleFor s childMetric * parentMetric.atrValue.getD 0

/-- SHORT candidate trail: `min(parent.lowestClose ?? cur, state.lowestPrice ?? cur) + trail·parentAtr`. -/
def trailNewShort (s : MPState) (parentMetric childMetric : STFMetric) (cur : ℚ) : ℚ :=
  min (parentMetric.lowestClose.getD cur) (s.lowestPrice.getD cur) +
    trailMultipleFor s childMetric * parentMetric.atrValue.getD 0

/-- `handleTrailingStop`.  `!parentAtr || parentAtr <= 0` collapses to
`atrValue.getD 0 ≤ 0` over ℚ (0 is the only falsy rational and an absent
value defaults falsy); `trailAtrMultiple` is stored before the guard, as in
the source. -/
def handleTrailingStop (s : MPState) (parentMetric childMetric : STFMetric)
    (currentPrice : ℚ) : MPState :=
  if parentMetric.atrValue.getD 0 ≤ 0 then s
  else if s.direction = .long then
    if trailNewLong s parentMetric childMetric currentPrice >
          s.trailPrice.getD s.stopPrice ∧
        trailNewLong s parentMetric childMetric currentPrice < currentPrice then
      applyTrail { s with trailAtrMultiple := trailMultipleFor s childMetric }
        (trailNewLong s parentMetric childMetric currentPrice)
    else { s with trailAtrMultiple := trailMultipleFor s childMetric }
  else
    if trailNewShort s parentMetric childMetric currentPrice <
          s.trailPrice.getD s.stopPrice ∧
        trailNewShort s parentMetric childMetric currentPrice > currentPrice then
      applyTrail { s with trailAtrMultiple := trailMultipleFor s childMetric }
        (trailNewShort s parentMetric childMetric currentPrice)
    else { s with trailAtrMultiple := trailMultipleFor s childMetric }

/-- The partial-exit executor (source name `executePartial`); returning `none`
models `closePosition` deleting the managed entry. -/
def executeScaleOut (s : MPState) (quantity : ℚ) : Option MPState :=
  if quantity ≤ 0 then some s
  else
    let newTotal := max (s.totalQuantity - quantity) 0
    if newTotal ≤ qEps then none
    else some { s with totalQuantity := newTotal, riskAmount := newTotal * s.slDistance }

/-- `partialRatio = 0.3`. -/
def scaleOutShare : ℚ := 3/10

/-- `handlePartials`.  The second scale-out reuses the quantity computed from
the pre-exit `totalQuantity`, exactly as the source does. -/
def handlePartials (s : MPState) (childMetric : STFMetric) (currentPrice : ℚ) :
    Option MPState :=
  if s.totalQuantity ≤ qEps then some s
  else
    let cs := computeScores childMetric
    let cleanTrend := s.cleanScore ≥ 6/10 ∧ s.gateScore ≥ 7/10
    let strongVolume := cs.volume ≥ 70 ∧ cs.flow ≥ 70
    let rMultiple := calculateRMultiple s currentPrice
    let scaleOutQty := min (scaleOutShare * s.baseQuantity) s.totalQuantity
    let triggeredCleanTrend := cleanTrend ∧ rMultiple ≥ 2
    let triggeredGeneral := ¬cleanTrend ∧ ¬strongVolume ∧ rMultiple ≥ 3/2
    let afterFirst : Option MPState :=
      if ¬s.partialOneTaken ∧ (triggeredCleanTrend ∨ triggeredGeneral) then
        (executeScaleOut s scaleOutQty).map fun s1 =>
          let s2 := { s1 with partialOneTaken := true }
          if triggeredGeneral then moveStopToBreakEven s2 currentPrice else s2
      else some s
    afterFirst.bind fun s3 =>
      if ¬s3.partialTwoTaken ∧ ¬cleanTrend ∧ rMultiple ≥ 2 then
        (executeScaleOut s3 scaleOutQty).map fun s4 =>
          { s4 with partialTwoTaken := true }
      else some s3

/-- `executeAdd`. -/
def executeAdd (s : MPState) (quantity : ℚ) : MPState :=
  if quantity ≤ 0 then s
  else
    { s with
      totalQuantity := s.totalQuantity + quantity
      addCount := s.addCount + 1
      riskAmount := (s.totalQuantity + quantity) * s.slDistance }

/-- `handleAdds`.  As in the source, after the first add raises `addCount`
to 1, the second branch can fire in the same invocation when `R ≥ 2`. -/
def handleAdds (s : MPState) (childMetric : STFMetric) (currentPrice : ℚ) : MPState :=
  if s.addCount ≥ 2 ∨ ¬s.beMoved then s
  else
    let cs := computeScores childMetric
    if s.cleanScore < 65/100 ∨ s.gateScore < 7/10 ∨ cs.efficiency < 55 then s
    else
      let rMultiple := calculateRMultiple s currentPrice
      let s1 := if s.addCount = 0 ∧ rMultiple ≥ 1 then
          executeAdd s (s.baseQuantity * (5/10)) else s
      if s1.addCount = 1 ∧ rMultiple ≥ 2 then
        executeAdd s1 (s1.baseQuantity * (33/100))
      else s1

/-- `childMinutes || 10` / `parentMinutes || 30` (JS falsy fallback on 0). -/
def effChildMinutes (s : MPState) : ℚ := if s.childMinutes = 0 then 10 else s.childMinutes

def effParentMinutes (s : MPState) : ℚ := if s.parentMinutes = 0 then 30 else s.parentMinutes

/-- `thresholdCandles = Math.max(1, Math.ceil(3 * (parentMinutes / childMinutes)))`. -/
def thresholdCandles (s : MPState) : ℤ :=
  max 1 ⌈3 * (effParentMinutes s / effChildMinutes s)⌉

/-- `elapsedCandles = Math.floor((now - openedAt) / (childMinutes * 60_000))`. -/
def elapsedCandles (s : MPState) (now : ℚ) : ℤ :=
  ⌊(now - s.openedAt) / (effChildMinutes s * 60000)⌋

/-- The stage-1 guard `timeStopTimestamp && now - timeStopTimestamp >= thresholdCandles * childMinutes * 60_000`
(the truthiness test on the timestamp is a 0-check). -/
def timeStopElapsedAgain (s : MPState) (now : ℚ) : Bool :=
  match s.timeStopTimestamp with
  | some t =>
    decide (t ≠ 0) &&
      decide (now - t ≥ (thresholdCandles s : ℚ) * effChildMinutes s * 60000)
  | none => false

/-- `handleTimeStop`.  `Date.now()` is passed in as `now`; `none` models the
time-stop close. -/
def handleTimeStop (s : MPState) (now : ℚ) : Option MPState :=
  if s.timeStopStage = 0 ∧ elapsedCandles s now ≥ thresholdCandles s then
    let s1 :=
      if s.maxR < 1/2 then
        let targetStop := s.entryPrice - s.direction.sign * (1/2) * s.initialSlDistance
        { s with
          stopPrice := targetStop
          slDistance := |targetStop - s.entryPrice|
          riskAmount := s.totalQuantity * |targetStop - s.entryPrice| }
      else s
    some { s1 with timeStopStage := 1, timeStopTimestamp := some now }
  else if s.timeStopStage = 1 ∧ timeStopElapsedAgain s now ∧ s.maxR < 1/2 then
    none
  else some s

/-- `handleStructureBreak`; `!trailBase` is a 0-check over ℚ. -/
def handleStructureBreak (s : MPState) (childMetric : STFMetric) : Option MPState :=
  let trailBase := s.trailPrice.getD s.stopPrice
  let atrChild := (childMetric.atrValue.or s.childAtr).getD 0
  if trailBase = 0 ∨ atrChild ≤ 0 then some s
  else
    let closes := childMetric.closeHistory
    if closes.length < 2 then some s
    else
      let threshold := trailBase + s.direction.sign * (3/10) * atrChild
      let recent := closes.drop (closes.length - 2)
      let breach := recent.all fun close =>
        match s.direction with
        | .long => decide (close ≤ threshold)
        | .short => decide (close ≥ threshold)
      let s1 :=
        if breach then { s with structureBreakCounter := s.structureBreakCounter + 1 }
        else { s with structureBreakCounter := 0 }
      if s1.structureBreakCounter ≥ 2 then none else some s1

/-- One full pass of `updateManagedPositions` for a single managed symbol whose
parent and child metrics are both present.  `markPrice` is the executor's
mark-price fallback used when `childMetric.latestClose` is falsy; the
timeframe-minutes refresh is the identity because the stored labels are fixed
at entry.  `none` models deletion of the managed entry. -/
def cycleUpdateSymbol (s : MPState) (parentMetric childMetric : STFMetric)
    (markPrice now : ℚ) : Option MPState :=
  let currentPrice :=
    match childMetric.latestClose with
    | some c => if c = 0 then markPrice else c
    | none => markPrice
  let s := { s with
    parentAtr := parentMetric.atrValue
    childAtr := childMetric.atrValue
    cleanScore := (|signedTrend parentMetric| + (computeScores parentMetric).efficiency +
      (computeScores parentMetric).align) / 300
    gateScore := childMetric.smallMoveGate.getD s.gateScore
    lastPrice := some currentPrice }
  let s :=
    match s.direction with
    | .long =>
      { s with highestPrice := some (max (s.highestPrice.getD s.entryPrice)
          (max (parentMetric.highestClose.getD currentPrice) currentPrice)) }
    | .short =>
      { s with lowestPrice := some (min (s.lowestPrice.getD s.entryPrice)
          (min (parentMetric.lowestClose.getD currentPrice) currentPrice)) }
  let s := { s with maxR := max s.maxR (calculateRMultiple s currentPrice) }
  let s := handleBreakEvenMove s childMetric currentPrice
  let s := handleTrailingStop s parentMetric childMetric currentPrice
  (handlePartials s childMetric currentPrice).bind fun s =>
    let s := handleAdds s childMetric currentPrice
    (handleTimeStop s now).bind fun s =>
      (handleStructureBreak s childMetric).bind fun s =>
        if s.totalQuantity ≤ qEps then none else some s

/-! ### A concrete reachable trace of the managed-position state machine

A LONG position opened at 100 with initial stop distance 5 (stop 95).  The
parent/child metrics keep `cleanScore = 1/4` and `gateScore = 1/2`
(`signedTrend = 50`, efficiency 15, align 10), so `computeTrailAtr` is
exactly 2.  Cycle 1 trails the stop to 97; cycle 2 (price 107) triggers the
break-even move to 100 while `trailPrice` stays 97; cycle 3 (price 99,
parent ATR 4.5) applies a trailing update to 98 — below the entry. -/

def traceOpenState : MPState where
  direction := .long
  entryPrice := 100
  baseQuantity := 1
  totalQuantity := 1
  kSl := 2
  slDistance := 5
  initialSlDistance := 5
  stopPrice := 95
  trailAtrMultiple := 2
  cleanScore := 1/4
  gateScore := 1/2
  openedAt := 0
  addCount := 0
  beMoved := false
  highestPrice := some 100
  lowestPrice := none
  trailPrice := none
  partialOneTaken := false
  partialTwoTaken := false
  timeStopStage := 0
  timeStopTimestamp := none
  structureBreakCounter := 0
  parentAtr := some 2
  childAtr := some 1
  riskAmount := 5
  parentMinutes := 30
  childMinutes := 10
  maxR := 0
  lastPrice := some 100

def traceParentMetric (atr high : ℚ) : STFMetric where
  netChange := some (1/100)
  chop := some (1/2)
  efficiency := some (15/100)
  align := some (1/10)
  atrValue := some atr
  highestClose := some high

def traceChildMetric (price : ℚ) : STFMetric where
  smallMoveGate := some (1/2)
  latestClose := some price
  atrValue := some 1

def traceAfter1 : Option MPState :=
  cycleUpdateSymbol traceOpenState (traceParentMetric 2 101) (traceChildMetric 101)
    101 600000

def traceAfter2 : Option MPState :=
  traceAfter1.bind fun s =>
    cycleUpdateSymbol s (traceParentMetric 6 107) (traceChildMetric 107) 107 1200000

def traceAfter3 : Option MPState :=
  traceAfter2.bind fun s =>
    cycleUpdateSymbol s (traceParentMetric (9/2) 107) (traceChildMetric 99) 99 1800000

/-- State after cycle 1: the stop has trailed from 95 to 97. -/
def traceState1 : MPState :=
  { traceOpenState with
    slDistance := 3
    stopPrice := 97
    highestPrice := some 101
    trailPrice := some 97
    riskAmount := 3
    maxR := 1/5
    lastPrice := some 101 }

/-- State after cycle 2: break-even has moved the stop to the entry price 100,
but `trailPrice` still records the stale trail level 97. -/
def traceState2 : MPState :=
  { traceState1 with
    slDistance := 0
    stopPrice := 100
    beMoved := true
    highestPrice := some 107
    parentAtr := some 6
    riskAmount := 0
    maxR := 7/5
    lastPrice := some 107 }

/-- State after cycle 3: a trailing update (newTrail 98 > stale trailPrice 97)
has moved the stop from 100 down to 98, across the entry price. -/
def traceState3 : MPState :=
  { traceState2 with
    slDistance := 2
    stopPrice := 98
    trailPrice := some 98
    parentAtr := some (9/2)
    riskAmount := 2
    lastPrice := some 99 }

/-! ## Exchange-facing service embedding
(src/src/binance/binance.service.ts, second revision, lines 908-1880)

JS `Array.prototype.sort` with a numeric comparator is a stable sort; it is
modelled by stable insertion sorts keyed by a ℚ projection. -/

/-- Stable ascending insert: `x` goes before the first element whose key is
not smaller (preserving the original order of equal keys). -/
def insertAsc {α : Type} (key : α → ℚ) (x : α) : List α → List α
  | [] => [x]
  | y :: ys => if key y < key x then y :: insertAsc key x ys else x :: y :: ys

/-- Stable sort ascending by key (model of `sort((a, b) => key a - key b)`). -/
def sortByKeyAsc {α : Type} (key : α → ℚ) : List α → List α
  | [] => []
  | x :: xs => insertAsc key x (sortByKeyAsc key xs)

/-- Stable descending insert. -/
def insertDesc {α : Type} (key : α → ℚ) (x : α) : List α → List α
  | [] => [x]
  | y :: ys => if key y > key x then y :: insertDesc key x ys else x :: y :: ys

/-- Stable sort descending by key (model of `sort((a, b) => key b - key a)`). -/
def sortByKeyDesc {α : Type} (key : α → ℚ) : List α → List α
  | [] => []
  | x :: xs => insertDesc key x (sortByKeyDesc key xs)

/-- `SymbolTimeframeMetric` of the exchange service (the score fields start
unset and are written by the scoring pass).  `flowLabel` text is irrelevant
to the verified claims and omitted. -/
structure BMetric where
  changePercent : ℚ
  netChange : ℚ
  efficiency : ℚ
  chop : ℚ
  momentumAtr : ℚ
  smallMoveGate : ℚ
  totalQuoteVolume : ℚ
  atrPct : ℚ := 0
  flowRatio : Option ℚ := none
  align : Option ℚ := none
  volumeBoost : Option ℚ := none
  flowImmediateBase : Option ℚ := none
  flowPersistence : Option ℚ := none
  mtfConsistency : Option ℚ := none
  activeFlow : Option ℚ := none
  coreScore : Option ℚ := none
  confirmScore : Option ℚ := none
  finalScore : Option ℚ := none
deriving Repr, DecidableEq

def statsEps : ℚ := 1 / 1000000000

/-- `FINAL_CORE_WEIGHT = 0.67`. -/
def finalCoreWeight : ℚ := 67/100

/-- The ±-contributions of the other timeframes in `applyAlignment`: skip the
entry itself and every entry whose `changePercent` has zero sign; agreement
with the base direction contributes +1, disagreement −0.5. -/
def alignContribs (entries : List (String × BMetric)) (label : String)
    (baseDirection : ℚ) : List ℚ :=
  entries.filterMap fun e =>
    if e.1 = label then none
    else if qsign e.2.changePercent = 0 then none
    else some (if qsign e.2.changePercent = baseDirection then (1 : ℚ) else -(1/2))

/-- `applyAlignment`'s per-entry computation.  Metric maps are modelled as
association lists keyed by the timeframe label (object keys are unique); the
`Number.isFinite(changePercent)` guards are vacuous over ℚ. -/
def alignFor (entries : List (String × BMetric)) (label : String) (m : BMetric) : ℚ :=
  if qsign m.changePercent = 0 then 1/2
  else if (alignContribs entries label (qsign m.changePercent)).length = 0 then 1/2
  else
    clamp (((alignContribs entries label (qsign m.changePercent)).sum +
        (1/2) * ((alignContribs entries label (qsign m.changePercent)).length : ℚ)) /
      ((3/2) * ((alignContribs entries label (qsign m.changePercent)).length : ℚ))) 0 1

/-- `applyAlignment`: write the computed `align` into every entry. -/
def applyAlignment (entries : List (String × BMetric)) : List (String × BMetric) :=
  entries.map fun e => (e.1, { e.2 with align := some (alignFor entries e.1 e.2) })

/-- The claim's contributions, phrased over `netChange` signs. -/
def alignClaimContribs (entries : List (String × BMetric)) (label : String)
    (baseSign : ℚ) : List ℚ :=
  entries.filterMap fun e =>
    if e.1 = label then none
    else if qsign e.2.netChange = 0 then none
    else some (if qsign e.2.netChange = baseSign then (1 : ℚ) else -(1/2))

/-- The specification's alignment formula, written from the claim's words:
base sign = sign(netChange); each other timeframe with non-zero
sign(netChange) contributes +1 on agreement and −0.5 otherwise; normalised
as `(sum + 0.5·N)/(1.5·N)` clamped, and 0.5 with no comparisons or zero base
sign. -/
def alignClaimFormula (entries : List (String × BMetric)) (label : String)
    (m : BMetric) : ℚ :=
  if qsign m.netChange = 0 ∨
      (alignClaimContribs entries label (qsign m.netChange)).length = 0 then 1/2
  else
    clamp (((alignClaimContribs entries label (qsign m.netChange)).sum +
        (1/2) * ((alignClaimContribs entries label (qsign m.netChange)).length : ℚ)) /
      ((3/2) * ((alignClaimContribs entries label (qsign m.netChange)).length : ℚ))) 0 1

/-- `weightedAverage`; entries with non-positive weight are skipped (the
`Number.isFinite(value ?? NaN)` guard is vacuous over ℚ). -/
def weightedAverage (entries : List (ℚ × ℚ)) : ℚ :=
  let valid := entries.filter fun e => e.2 > 0
  let weightTotal := (valid.map Prod.snd).sum
  if weightTotal ≤ 0 then 0
  else clamp (((valid.map fun e => e.1 * e.2).sum) / weightTotal) 0 1

/-- `computeVolumeScaler`. -/
def computeVolumeScaler (zScore : ℚ) : ℚ := clamp (clamp zScore 0 3 / 3) 0 1

structure VolStats where
  mean : ℚ
  std : ℚ
deriving Repr, DecidableEq

/-- The per-entry scoring pass of `getTopMovers` (lines 1127-1174): writes
`volumeBoost`, `activeFlow`, `flowPersistence`, `mtfConsistency`, `align`,
`coreScore`, `confirmScore` and `finalScore` into the metric.  `sigm` is the
oracle for `sigmoid` (which calls `Math.exp`). -/
def scoreMetric (sigm : ℚ → ℚ) (volStats : VolStats) (liqPenalty : ℚ)
    (m : BMetric) : BMetric :=
  let volZ :=
    if volStats.std > statsEps then (m.totalQuoteVolume - volStats.mean) / volStats.std
    else 0
  let volBoost := sigm (clamp volZ (-3) 3)
  let gVol := computeVolumeScaler volZ
  let activeFlow := clamp (m.flowImmediateBase.getD (1/2) * gVol) 0 1
  let flowPersistence := clamp (m.flowPersistence.getD 0) 0 1
  let mtfConsistency := clamp (m.mtfConsistency.getD (1/2)) 0 1
  let align := clamp (m.align.getD (1/2)) 0 1
  let coreScore := m.smallMoveGate * weightedAverage
    [(m.efficiency, 1), (1 - m.chop, 1), (m.momentumAtr, 1), (align, 1),
      (mtfConsistency, 8/10)]
  let confirmScore := weightedAverage
    [(volBoost, 5/10), (activeFlow, 3/10), (flowPersistence, 2/10)]
  let finalScore := clamp
    (finalCoreWeight * coreScore + (1 - finalCoreWeight) * confirmScore - liqPenalty)
    0 1
  { m with
    volumeBoost := some volBoost
    activeFlow := some activeFlow
    flowPersistence := some flowPersistence
    mtfConsistency := some mtfConsistency
    align := some align
    coreScore := some coreScore
    confirmScore := some confirmScore
    finalScore := some finalScore }

structure EntryScores where
  final : ℚ
  core : ℚ
  confirm : ℚ
  liquidityPenalty : ℚ
  efficiency : ℚ
  chop : ℚ
  momentumAtr : ℚ
  align : ℚ
  mtfConsistency : ℚ
  gate : ℚ
  volumeBoost : ℚ
  flowActive : ℚ
  flowPersistence : ℚ
deriving Repr, DecidableEq

/-- `Math.round` (half away from zero for positives; JS rounds half up). -/
def jsRound (x : ℚ) : ℤ := ⌊x + 1/2⌋

structure MoversEntry where
  symbol : String
  lastPrice : ℚ
  changePercent : ℚ
  flowPercent : Option ℚ := none
  scores : EntryScores
deriving Repr, DecidableEq

/-- Build the `MoversEntry` pushed for one (symbol, timeframe); `m` must
already be the scored metric. -/
def mkMoversEntry (symbol : String) (lastPrice liqPenalty : ℚ) (m : BMetric) :
    MoversEntry where
  symbol := symbol
  lastPrice := lastPrice
  changePercent := m.changePercent
  flowPercent := m.flowRatio.map fun r => (jsRound (r * 10000) : ℚ) / 100
  scores :=
    { final := m.finalScore.getD 0
      core := m.coreScore.getD 0
      confirm := m.confirmScore.getD 0
      liquidityPenalty := liqPenalty
      efficiency := m.efficiency
      chop := m.chop
      momentumAtr := m.momentumAtr
      align := m.align.getD 0
      mtfConsistency := m.mtfConsistency.getD 0
      gate := m.smallMoveGate
      volumeBoost := m.volumeBoost.getD 0
      flowActive := m.activeFlow.getD 0
      flowPersistence := m.flowPersistence.getD 0 }

/-- Surviving per-symbol data collected by the fan-out phase. -/
structure SymbolData where
  symbol : String
  lastPrice : ℚ
  metrics : List (String × BMetric)
  liquidityPenalty : ℚ
deriving Repr, DecidableEq

def moversTimeframeLabels : List String := ["10m", "30m", "1h", "2h"]

/-- The entry emitted for one symbol and one timeframe label, if that symbol
carries a metric for the label (the `Number.isFinite(changePercent)` guard is
vacuous over ℚ). -/
def entryForSymbol (sigm : ℚ → ℚ) (stats : String → VolStats) (label : String)
    (sd : SymbolData) : Option MoversEntry :=
  (sd.metrics.lookup label).map fun m =>
    let liqPenalty := clamp sd.liquidityPenalty 0 1
    mkMoversEntry sd.symbol sd.lastPrice liqPenalty
      (scoreMetric sigm (stats label) liqPenalty m)

/-- All entries pushed into `metricsByTimeframe[label]`. -/
def entriesForLabel (sigm : ℚ → ℚ) (stats : String → VolStats)
    (dataList : List SymbolData) (label : String) : List MoversEntry :=
  dataList.filterMap (entryForSymbol sigm stats label)

/-- The `changes` map recorded per timeframe. -/
def changesForLabel (dataList : List SymbolData) (label : String) :
    List (String × ℚ) :=
  dataList.filterMap fun sd =>
    (sd.metrics.lookup label).map fun m => (sd.symbol, m.changePercent)

structure MoversSnapshot where
  timeframe : String
  topGainers : List MoversEntry
  topLosers : List MoversEntry
  changes : List (String × ℚ)
deriving Repr, DecidableEq

/-- `TOP_MOVERS = 10`. -/
def topMoversCount : ℕ := 10

/-- The snapshot built for one timeframe label. -/
def snapshotForLabel (sigm : ℚ → ℚ) (stats : String → VolStats)
    (dataList : List SymbolData) (label : String) : MoversSnapshot :=
  let entries := entriesForLabel sigm stats dataList label
  let changes := changesForLabel dataList label
  if entries.isEmpty then
    { timeframe := label, topGainers := [], topLosers := [], changes := changes }
  else
    { timeframe := label
      topGainers := (sortByKeyDesc MoversEntry.changePercent entries).take topMoversCount
      topLosers := (sortByKeyAsc MoversEntry.changePercent entries).take topMoversCount
      changes := changes }

/-- `computeVolumeStats` for one timeframe's volume collection; `sqrtFn` is
the oracle for `Math.sqrt`. -/
def statsForValues (sqrtFn : ℚ → ℚ) (values : List ℚ) : VolStats :=
  if values.length = 0 then ⟨0, 1⟩
  else
    let mean := values.sum / (values.length : ℚ)
    let variance := (values.map fun v => (v - mean) ^ 2).sum / ((max (values.length - 1) 1 : ℕ) : ℚ)
    let std := sqrtFn variance
    ⟨mean, if std > statsEps then std else 1⟩

def volumesForLabel (dataList : List SymbolData) (label : String) : List ℚ :=
  dataList.filterMap fun sd => (sd.metrics.lookup label).map BMetric.totalQuoteVolume

def pipelineStats (sqrtFn : ℚ → ℚ) (dataList : List SymbolData) :
    String → VolStats :=
  fun label => statsForValues sqrtFn (volumesForLabel dataList label)

/-- `getTopMovers` reduced to its data flow: empty universe → empty map; no
surviving symbol data → empty map; otherwise one snapshot per configured
timeframe.  `fetchData` abstracts the per-symbol fetch/metric step (`none` =
symbol dropped). -/
def getTopMoversModel (sigm sqrtFn : ℚ → ℚ) (universeSymbols : List String)
    (fetchData : String → Option SymbolData) : List (String × MoversSnapshot) :=
  if universeSymbols.isEmpty then []
  else
    let dataList := universeSymbols.filterMap fetchData
    if dataList.isEmpty then []
    else
      moversTimeframeLabels.map fun label =>
        (label, snapshotForLabel sigm (pipelineStats sqrtFn dataList) dataList label)

/-! ### Universe selection (`getTopVolumeSymbols`, `getTradableSymbols`) -/

/-- `VOLUME_REFRESH_INTERVAL` = 12 h in ms. -/
def volumeRefreshInterval : ℚ := 43200000

/-- `MAX_SELECTED_SYMBOLS`. -/
def maxSelectedSymbols : ℕ := 80

structure UniverseCache where
  symbols : List String
  total : ℕ
  expiresAt : ℚ
deriving Repr, DecidableEq

/-- `rankedSymbols`: every tradable symbol paired with its 24h quote volume,
defaulting to 0 when the symbol is missing from the volume map
(`volumeBySymbol[symbol] ?? 0`), sorted descending by volume. -/
def rankedSymbols (tradable : List String) (volumes : List (String × ℚ)) :
    List (String × ℚ) :=
  sortByKeyDesc Prod.snd (tradable.map fun s => (s, (volumes.lookup s).getD 0))

/-- `topCount = Math.min(MAX_SELECTED_SYMBOLS, Math.max(1, Math.ceil(len / 2)))`
(`Math.ceil(n/2) = (n+1)/2` on naturals). -/
def topCountFor (total : ℕ) : ℕ := min maxSelectedSymbols (max 1 ((total + 1) / 2))

/-- The refresh path of `getTopVolumeSymbols` (cache miss): returns the
selection and the cache entry written.  `now` is `Date.now()`. -/
def topVolumeRefresh (now : ℚ) (tradable : List String)
    (volumes : List (String × ℚ)) : List String × UniverseCache :=
  if tradable.length = 0 then
    ([], ⟨[], 0, now + volumeRefreshInterval⟩)
  else
    let selected := ((rankedSymbols tradable volumes).take
      (topCountFor tradable.length)).map Prod.fst
    (selected, ⟨selected, tradable.length, now + volumeRefreshInterval⟩)

/-- `getTradableSymbols` filter on one exchange-info row. -/
structure ExchangeSymbolInfo where
  symbol : String
  contractType : String
  quoteAsset : String
  status : String
deriving Repr, DecidableEq

def getTradableSymbols (rows : List ExchangeSymbolInfo) : List String :=
  (rows.filter fun r =>
    r.contractType = "PERPETUAL" ∧ r.quoteAsset = "USDT" ∧ r.status = "TRADING").map
    ExchangeSymbolInfo.symbol

/-! ### Candle fetching (`fetchOneMinuteCandles`) -/

structure Candle where
  openTime : ℚ
  closeTime : ℚ
  openP : ℚ
  highP : ℚ
  lowP : ℚ
  closeP : ℚ
  volume : ℚ
  quoteVolume : ℚ
  takerBuyQuoteVolume : ℚ
deriving Repr, DecidableEq

/-- One numeric cell of a raw kline row: `none` models a value whose
`Number(...)`/`parseFloat(...)` result is not finite. -/
def klineField (row : List (Option ℚ)) (i : ℕ) : Option ℚ := (row.get? i).bind id

/-- Parse one raw kline row: rows with fewer than 7 cells are skipped, and a
row is dropped whenever any of the nine numeric fields (indices 0-7 and 10)
is non-finite — out-of-range indices 7 and 10 read as `undefined → NaN`. -/
def parseKlineRow (row : List (Option ℚ)) : Option Candle :=
  if row.length < 7 then none
  else
    match klineField row 0, klineField row 1, klineField row 2, klineField row 3,
        klineField row 4, klineField row 5, klineField row 6, klineField row 7,
        klineField row 10 with
    | some openTime, some openP, some highP, some lowP, some closeP, some volume,
        some closeTime, some quoteVolume, some takerBuyQuoteVolume =>
      some ⟨openTime, closeTime, openP, highP, lowP, closeP, volume, quoteVolume,
        takerBuyQuoteVolume⟩
    | _, _, _, _, _, _, _, _, _ => none

/-- `fetchOneMinuteCandles` on an already-received response body: parse,
drop bad rows, sort ascending by `openTime`. -/
def fetchOneMinuteCandles (rows : List (List (Option ℚ))) : List Candle :=
  sortByKeyAsc Candle.openTime (rows.filterMap parseKlineRow)

/-! ### Retry loop (`requestWithRetry`, `shouldRetry`) -/

inductive ReqError where
  | network
  | http (status : ℕ)
deriving Repr, DecidableEq

/-- `shouldRetry`: an `AxiosError` carrying a truthy status below 500 other
than 429 is not retried; everything else (network errors, 5xx, 429) is.
`http 0` models an `AxiosError` without a response status (falsy). -/
def shouldRetry : ReqError → Bool
  | .network => true
  | .http status => if status ≠ 0 ∧ status < 500 ∧ status ≠ 429 then false else true

def maxRetryAttempts : ℕ := 5

def retryBackoffBase : ℕ := 500

def maxRetryBackoff : ℕ := 4000

structure RetryResult (T : Type) where
  result : Except ReqError T
  attempts : ℕ
  delays : List ℕ
deriving Repr

/-- The retry loop: `fuel` is the number of attempts still allowed, `made`
the attempts already made, `delay` the next back-off; `outcomes i` is the
result of the (i+1)-st attempt.  A non-retryable error or fuel exhaustion
surfaces the error; a retryable failure sleeps `delay` then doubles it,
capped at `MAX_RETRY_BACKOFF_MS`. -/
def retryGo {T : Type} (outcomes : ℕ → Except ReqError T) :
    ℕ → ℕ → ℕ → List ℕ → RetryResult T
  | 0, made, _, ds => ⟨.error .network, made, ds⟩
  | fuel + 1, made, delay, ds =>
    match outcomes made with
    | .ok v => ⟨.ok v, made + 1, ds⟩
    | .error e =>
      if ¬shouldRetry e then ⟨.error e, made + 1, ds⟩
      else if fuel = 0 then ⟨.error e, made + 1, ds⟩
      else retryGo outcomes fuel (made + 1) (min (delay * 2) maxRetryBackoff)
        (ds ++ [delay])

/-- `requestWithRetry` (the `fuel = 0` base case of `retryGo` is unreachable
because the loop runs at least one attempt). -/
def requestWithRetry {T : Type} (outcomes : ℕ → Except ReqError T) : RetryResult T :=
  retryGo outcomes maxRetryAttempts 0 retryBackoffBase []

def alignWitnessMetricA : BMetric :=
  { changePercent := 2, netChange := 1/50, efficiency := 0, chop := 0,
    momentumAtr := 0, smallMoveGate := 0, totalQuoteVolume := 0 }

def alignWitnessMetricB : BMetric :=
  { changePercent := 0, netChange := 0, efficiency := 0, chop := 0,
    momentumAtr := 0, smallMoveGate := 0, totalQuoteVolume := 0 }

def alignWitnessEntries : List (String × BMetric) :=
  [("10m", alignWitnessMetricA), ("30m", alignWitnessMetricB)]

def c4sigm : ℚ → ℚ := fun _ => 1/2

def c4stats : String → VolStats := fun _ => ⟨0, 1⟩

def c4symbolData : SymbolData :=
  { symbol := "BTCUSDT", lastPrice := 100,
    metrics := [("10m", alignWitnessMetricA)], liquidityPenalty := 0 }

def c4data : List SymbolData := [c4symbolData]

def c4entry : MoversEntry :=
  mkMoversEntry "BTCUSDT" 100 (clamp 0 0 1)
    (scoreMetric c4sigm (c4stats "10m") (clamp 0 0 1) alignWitnessMetricA)

def c9symbolData : SymbolData :=
  { symbol := "BTCUSDT", lastPrice := 100,
    metrics := [("10m", alignWitnessMetricA)], liquidityPenalty := 0 }

def c9fetch : String → Option SymbolData :=
  fun s => if s = "BTCUSDT" then some c9symbolData else none

/-- A valid 11-cell kline row with `openTime = 5` (cells 8 and 9 are never
read by the parser). -/
def dupKlineRow : List (Option ℚ) :=
  [some 5, some 1, some 2, some 1, some 2, some 3, some 65000, some 4, none,
    none, some 2]

/-- Two transient network failures followed by a success. -/
def c6outcomes : ℕ → Except ReqError Unit :=
  fun i => if i < 2 then .error .network else .ok ()

/-! ### Entry-order bookkeeping of `evaluateCandidate`
(strategy.service.ts lines 187-274, `extractNumber` lines 950-953)

Order-response fields are `Option (Option ℚ)`: the outer layer models a
property that is absent (`undefined`, skipped over by `??`), the inner layer
models a present value whose `Number(...)` parse is not finite. -/

structure OrderResponse where
  executedQty : Option (Option ℚ) := none
  origQty : Option (Option ℚ) := none
  avgPrice : Option (Option ℚ) := none
  price : Option (Option ℚ) := none
deriving Repr, DecidableEq

/-- The `a ?? b` nullish coalescing on response fields. -/
def jsCoalesce (a b : Option (Option ℚ)) : Option (Option ℚ) :=
  match a with
  | some x => some x
  | none => b

/-- `extractNumber`: `Number(value)` with non-finite results mapped to 0. -/
def extractNumber (v : Option ℚ) : ℚ := v.getD 0

/-- The parse of `executedQty ?? origQty` (`none` = absent or non-finite). -/
def parsedQuantity (r : OrderResponse) : Option ℚ :=
  (jsCoalesce r.executedQty r.origQty).bind id

/-- The parse of `avgPrice ?? price`. -/
def parsedPrice (r : OrderResponse) : Option ℚ :=
  (jsCoalesce r.avgPrice r.price).bind id

/-- `quantity`/`avgPrice` derivation plus the `!quantity || !avgPrice` skip:
`avgPrice` falls back to the candidate's `lastPrice` through `||` when the
parsed price is 0. -/
def entryDetails (r : OrderResponse) (lastPrice : ℚ) : Option (ℚ × ℚ) :=
  let quantity := extractNumber (parsedQuantity r)
  let avgPrice0 := extractNumber (parsedPrice r)
  let avgPrice := if avgPrice0 = 0 then lastPrice else avgPrice0
  if quantity = 0 ∨ avgPrice = 0 then none else some (quantity, avgPrice)

/-- The tail of `evaluateCandidate` after a successful market order: derive
quantity and price from the response, or abort before placing the stop-loss
and before recording any managed state (`none` = no stop order, no state).
On success it returns the initial stop price together with the recorded
`ManagedPositionState`. -/
def evaluateCandidateTail (direction : Direction) (kSl : ℚ)
    (childAtrValue parentAtrValue : Option ℚ) (cleanParent gateChild : ℚ)
    (parentMinutes childMinutes now : ℚ) (r : OrderResponse) (lastPrice : ℚ) :
    Option (ℚ × MPState) :=
  match entryDetails r lastPrice with
  | none => none
  | some (quantity, avgPrice) =>
    let slDistance := kSl * childAtrValue.getD 0
    let stop0 :=
      if direction = .long then avgPrice - slDistance else avgPrice + slDistance
    let stopPrice := max stop0 (1/10000)
    some (stopPrice,
      { direction := direction
        entryPrice := avgPrice
        baseQuantity := quantity
        totalQuantity := quantity
        kSl := kSl
        slDistance := slDistance
        initialSlDistance := slDistance
        stopPrice := stopPrice
        trailAtrMultiple := computeTrailAtr cleanParent gateChild
        cleanScore := cleanParent
        gateScore := gateChild
        openedAt := now
        addCount := 0
        beMoved := false
        highestPrice := if direction = .long then some avgPrice else none
        lowestPrice := if direction = .short then some avgPrice else none
        trailPrice := none
        partialOneTaken := false
        partialTwoTaken := false
        timeStopStage := 0
        timeStopTimestamp := none
        structureBreakCounter := 0
        parentAtr := parentAtrValue
        childAtr := childAtrValue
        riskAmount := quantity * slDistance
        parentMinutes := parentMinutes
        childMinutes := childMinutes
        maxR := 0
        lastPrice := some avgPrice })

def c10response : OrderResponse :=
  { executedQty := some none, origQty := some (some 2), avgPrice := none,
    price := some (some 50) }

/-! ## Theorems -/

theorem clamp_le (value lo hi : ℚ) (h : lo ≤ hi) : clamp value lo hi ≤ hi := by
  unfold clamp
  split_ifs with h1 h2
  · exact h
  · exact le_refl hi
  · linarith

theorem le_clamp (value lo hi : ℚ) (h : lo ≤ hi) : lo ≤ clamp value lo hi := by
  unfold clamp
  split_ifs with h1 h2
  · exact le_refl lo
  · exact h
  · linarith

theorem applyTrail_stopPrice (s : MPState) (v : ℚ) : (applyTrail s v).stopPrice = v := rfl

theorem applyTrail_trailPrice (s : MPState) (v : ℚ) :
    (applyTrail s v).trailPrice = some v := rfl

set_option maxHeartbeats 2000000 in
theorem traceAfter1_eq : traceAfter1 = some traceState1 := by
  norm_num [traceAfter1, traceOpenState, traceParentMetric, traceChildMetric,
    traceState1, cycleUpdateSymbol, handleBreakEvenMove, handleTrailingStop, trailMultipleFor, applyTrail, trailNewLong, trailNewShort,
    handlePartials, executeScaleOut, moveStopToBreakEven, handleAdds, executeAdd,
    handleTimeStop, timeStopElapsedAgain, thresholdCandles, elapsedCandles,
    effChildMinutes, effParentMinutes, handleStructureBreak, computeScores,
    computeTrailAtr, signedTrend, qsign, clamp, calculateRMultiple, isDegrading,
    isMomentumTurning, chainNonIncreasing, qEps, scaleOutShare, Direction.sign]

set_option maxHeartbeats 2000000 in
theorem traceAfter2_eq : traceAfter2 = some traceState2 := by
  rw [traceAfter2, traceAfter1_eq]
  norm_num [traceOpenState, traceParentMetric, traceChildMetric, traceState1,
    traceState2, cycleUpdateSymbol, handleBreakEvenMove, handleTrailingStop, trailMultipleFor, applyTrail, trailNewLong, trailNewShort,
    handlePartials, executeScaleOut, moveStopToBreakEven, handleAdds, executeAdd,
    handleTimeStop, timeStopElapsedAgain, thresholdCandles, elapsedCandles,
    effChildMinutes, effParentMinutes, handleStructureBreak, computeScores,
    computeTrailAtr, signedTrend, qsign, clamp, calculateRMultiple, isDegrading,
    isMomentumTurning, chainNonIncreasing, qEps, scaleOutShare, Direction.sign]

set_option maxHeartbeats 2000000 in
theorem traceAfter3_eq : traceAfter3 = some traceState3 := by
  rw [traceAfter3, traceAfter2_eq]
  norm_num [traceOpenState, traceParentMetric, traceChildMetric, traceState1,
    traceState2, traceState3, cycleUpdateSymbol, handleBreakEvenMove,
    handleTrailingStop, trailMultipleFor, applyTrail, trailNewLong, trailNewShort,
    handlePartials, executeScaleOut, moveStopToBreakEven,
    handleAdds, executeAdd, handleTimeStop, timeStopElapsedAgain, thresholdCandles,
    elapsedCandles, effChildMinutes, effParentMinutes, handleStructureBreak,
    computeScores, computeTrailAtr, signedTrend, qsign, clamp, calculateRMultiple,
    isDegrading, isMomentumTurning, chainNonIncreasing, qEps, scaleOutShare,
    Direction.sign]

/-- Claim C1: once `beMoved` is set, no later stop update moves `stopPrice`
to the adverse side of `entryPrice` (LONG: never below the level held when
`beMoved` was set).  The code violates this on the reachable trace
`traceOpenState → cycle 1 → cycle 2 → cycle 3`: cycle 2 sets `beMoved` with
the stop at the entry price 100 while `trailPrice` stays at the stale trail
level 97; cycle 3's trailing update (newTrail 98 > trailPrice 97) then moves
the stop down to 98, across the entry price. -/
theorem breakEvenInvariant_codeBug :
    traceAfter2 = some traceState2 ∧
    traceState2.beMoved = true ∧
    traceState2.stopPrice = traceState2.entryPrice ∧
    traceAfter3 = some traceState3 ∧
    traceState3.beMoved = true ∧
    traceState3.direction = Direction.long ∧
    traceState3.stopPrice < traceState3.entryPrice :=
  ⟨traceAfter2_eq, rfl, rfl, traceAfter3_eq, rfl, rfl, by
    norm_num [traceState3, traceState2, traceState1, traceOpenState]⟩

/-- Claim C2 counterexample: on the reachable state after cycle 2 of the
trace (LONG, `stopPrice = 100`, stale `trailPrice = 97`), the cycle-3
trailing inputs produce an applied trailing update whose new stop 98 is
strictly lower than the previous stop 100 — refuting "each applied trailing
update strictly raises stopPrice for a LONG position". -/
theorem trailingRaisesStop_counterexample :
    (traceAfter2.map fun s =>
      (s.direction, s.stopPrice,
        (handleTrailingStop s (traceParentMetric (9/2) 107) (traceChildMetric 99)
          99).stopPrice)) = some (Direction.long, 100, 98) ∧
    (98 : ℚ) < 100 := by
  constructor
  · rw [traceAfter2_eq]
    norm_num [traceState2, traceState1, traceOpenState, traceParentMetric,
      traceChildMetric, handleTrailingStop, trailMultipleFor, applyTrail, trailNewLong, trailNewShort, computeTrailAtr, clamp, isDegrading,
      isMomentumTurning, chainNonIncreasing]
  · norm_num

/-- Claim C2 (amended): a trailing update is applied only when the new trail
level strictly improves on the current `trailPrice` (or on `stopPrice` when
no `trailPrice` exists) and lies on the safe side of the current price; each
applied update makes `trailPrice` equal the new stop, and it strictly raises
(LONG) / lowers (SHORT) `stopPrice` whenever the previous `stopPrice` does
not already lie beyond the previous trail level — but not in general (see
the counterexample). -/
theorem handleTrailingStop_monotone (s : MPState) (pm cm : STFMetric) (cur : ℚ)
    (hch : (handleTrailingStop s pm cm cur).stopPrice ≠ s.stopPrice) :
    (s.direction = .long →
      (handleTrailingStop s pm cm cur).stopPrice > s.trailPrice.getD s.stopPrice ∧
      (handleTrailingStop s pm cm cur).stopPrice < cur ∧
      (handleTrailingStop s pm cm cur).trailPrice =
        some (handleTrailingStop s pm cm cur).stopPrice ∧
      (s.stopPrice ≤ s.trailPrice.getD s.stopPrice →
        (handleTrailingStop s pm cm cur).stopPrice > s.stopPrice)) ∧
    (s.direction = .short →
      (handleTrailingStop s pm cm cur).stopPrice < s.trailPrice.getD s.stopPrice ∧
      (handleTrailingStop s pm cm cur).stopPrice > cur ∧
      (handleTrailingStop s pm cm cur).trailPrice =
        some (handleTrailingStop s pm cm cur).stopPrice ∧
      (s.trailPrice.getD s.stopPrice ≤ s.stopPrice →
        (handleTrailingStop s pm cm cur).stopPrice < s.stopPrice)) := by
  unfold handleTrailingStop at hch ⊢
  split_ifs at hch ⊢ with hp hd hguard hguard
  · exact absurd rfl hch
  · refine ⟨fun _ => ?_, fun hshort => ?_⟩
    · rw [applyTrail_stopPrice, applyTrail_trailPrice]
      exact ⟨hguard.1, hguard.2, rfl, fun hle => lt_of_le_of_lt hle hguard.1⟩
    · rw [hshort] at hd; exact Direction.noConfusion hd
  · exact absurd rfl hch
  · refine ⟨fun hlong => absurd hlong hd, fun _ => ?_⟩
    rw [applyTrail_stopPrice, applyTrail_trailPrice]
    exact ⟨hguard.1, hguard.2, rfl, fun hle => lt_of_lt_of_le hguard.1 hle⟩
  · exact absurd rfl hch

/-- Witness for `handleTrailingStop_monotone`: a LONG position with no prior
trail (stop 95) receives a trailing update to 97 with current price 101. -/
theorem handleTrailingStop_monotone_witness :
    (handleTrailingStop traceOpenState (traceParentMetric 2 101)
        (traceChildMetric 101) 101).stopPrice >
      traceOpenState.trailPrice.getD traceOpenState.stopPrice ∧
    (handleTrailingStop traceOpenState (traceParentMetric 2 101)
        (traceChildMetric 101) 101).stopPrice < 101 ∧
    (handleTrailingStop traceOpenState (traceParentMetric 2 101)
        (traceChildMetric 101) 101).trailPrice =
      some (handleTrailingStop traceOpenState (traceParentMetric 2 101)
        (traceChildMetric 101) 101).stopPrice ∧
    (traceOpenState.stopPrice ≤
        traceOpenState.trailPrice.getD traceOpenState.stopPrice →
      (handleTrailingStop traceOpenState (traceParentMetric 2 101)
          (traceChildMetric 101) 101).stopPrice > traceOpenState.stopPrice) :=
  (handleTrailingStop_monotone traceOpenState (traceParentMetric 2 101)
    (traceChildMetric 101) 101
    (by norm_num [handleTrailingStop, trailMultipleFor, applyTrail, trailNewLong,
      trailNewShort, traceOpenState, traceParentMetric, traceChildMetric,
      computeTrailAtr, clamp, isDegrading, isMomentumTurning])).1
    rfl

/-- Claim C3 counterexample: on the reachable state after cycle 2 of the
trace (`timeStopStage = 0`, `maxR = 7/5 ≥ 0.5`), at `now = 5_400_000`
(elapsed child candles = 9 = threshold) the code still transitions the stage
to 1, although the claim requires `maxR < 0.5` for the 0→1 transition. -/
theorem timeStopTransition_counterexample :
    ((traceAfter2.bind fun s => handleTimeStop s 5400000).map
      fun s => s.timeStopStage) = some 1 ∧
    (traceAfter2.map fun s => s.timeStopStage) = some 0 ∧
    (traceAfter2.map fun s => decide (s.maxR ≥ 1/2)) = some true := by
  rw [traceAfter2_eq]
  refine ⟨?_, rfl, ?_⟩
  · norm_num [handleTimeStop, timeStopElapsedAgain, thresholdCandles,
      elapsedCandles, effChildMinutes, effParentMinutes, traceState2, traceState1,
      traceOpenState, Direction.sign]
  · norm_num [traceState2, traceState1, traceOpenState]

/-- Claim C3 (amended): with `thresh = max(1, ceil(3·parentMinutes/childMinutes))`,
the position transitions from stage 0 to stage 1 exactly when elapsed child
candles reach `thresh` — regardless of `maxR`; the stop is tightened to
`entry − dir·0.5·initialSlDistance` (and restamped) only when `maxR < 0.5`,
and `timeStopTimestamp` is stamped in all cases.  From stage 1, once another
`thresh·childMinutes` minutes elapse with `maxR < 0.5`, the position is
closed. -/
theorem handleTimeStop_stages (s : MPState) (now : ℚ) :
    (s.timeStopStage = 0 → elapsedCandles s now ≥ thresholdCandles s →
      ∃ s1, handleTimeStop s now = some s1 ∧
        s1.timeStopStage = 1 ∧ s1.timeStopTimestamp = some now ∧
        (s.maxR < 1/2 →
          s1.stopPrice = s.entryPrice - s.direction.sign * (1/2) * s.initialSlDistance) ∧
        (¬s.maxR < 1/2 → s1.stopPrice = s.stopPrice)) ∧
    (s.timeStopStage = 0 → elapsedCandles s now < thresholdCandles s →
      handleTimeStop s now = some s) ∧
    (s.timeStopStage = 1 → timeStopElapsedAgain s now = true → s.maxR < 1/2 →
      handleTimeStop s now = none) ∧
    (∀ t, s.timeStopTimestamp = some t → t ≠ 0 →
      now - t ≥ (thresholdCandles s : ℚ) * effChildMinutes s * 60000 →
      timeStopElapsedAgain s now = true) := by
  refine ⟨?_, ?_, ?_, ?_⟩
  · intro h0 helapsed
    unfold handleTimeStop
    rw [if_pos ⟨h0, helapsed⟩]
    by_cases hr : s.maxR < 1/2
    · refine ⟨_, rfl, rfl, rfl, fun _ => ?_, fun hcontra => absurd hr hcontra⟩
      rw [if_pos hr]
    · refine ⟨_, rfl, rfl, rfl, fun hcontra => absurd hcontra hr, fun _ => ?_⟩
      rw [if_neg hr]
  · intro h0 helapsed
    unfold handleTimeStop
    rw [if_neg (by intro hc; exact absurd hc.2 (not_le.mpr helapsed)),
      if_neg (by intro hc; rw [h0] at hc; exact absurd hc.1 (by norm_num))]
  · intro h1 hagain hr
    unfold handleTimeStop
    rw [if_neg (by intro hc; rw [h1] at hc; exact absurd hc.1 (by norm_num)),
      if_pos ⟨h1, by rw [hagain], hr⟩]
  · intro t ht htz hge
    unfold timeStopElapsedAgain
    rw [ht]
    simp [htz, hge]

/-- Witness for `handleTimeStop_stages`: stage-0 transition at the threshold
with `maxR < 0.5` (using the freshly opened trace state at `now = 5_400_000`,
elapsed = threshold = 9). -/
theorem handleTimeStop_stages_witness :
    ∃ s1, handleTimeStop traceOpenState 5400000 = some s1 ∧
      s1.timeStopStage = 1 ∧ s1.timeStopTimestamp = some 5400000 ∧
      (traceOpenState.maxR < 1/2 →
        s1.stopPrice = traceOpenState.entryPrice -
          traceOpenState.direction.sign * (1/2) * traceOpenState.initialSlDistance) ∧
      (¬traceOpenState.maxR < 1/2 → s1.stopPrice = traceOpenState.stopPrice) :=
  (handleTimeStop_stages traceOpenState 5400000).1 rfl
    (by norm_num [elapsedCandles, thresholdCandles, effChildMinutes,
      effParentMinutes, traceOpenState])

theorem insertAsc_perm {α : Type} (key : α → ℚ) (x : α) (l : List α) :
    List.Perm (insertAsc key x l) (x :: l) := by
  induction l with
  | nil => exact List.Perm.refl _
  | cons y ys ih =>
    unfold insertAsc
    split_ifs
    · exact List.Perm.trans (List.Perm.cons y ih) (List.Perm.swap x y ys)
    · exact List.Perm.refl _

theorem sortByKeyAsc_perm {α : Type} (key : α → ℚ) (l : List α) :
    List.Perm (sortByKeyAsc key l) l := by
  induction l with
  | nil => exact List.Perm.refl _
  | cons x xs ih =>
    exact List.Perm.trans (insertAsc_perm key x (sortByKeyAsc key xs))
      (List.Perm.cons x ih)

theorem insertDesc_perm {α : Type} (key : α → ℚ) (x : α) (l : List α) :
    List.Perm (insertDesc key x l) (x :: l) := by
  induction l with
  | nil => exact List.Perm.refl _
  | cons y ys ih =>
    unfold insertDesc
    split_ifs
    · exact List.Perm.trans (List.Perm.cons y ih) (List.Perm.swap x y ys)
    · exact List.Perm.refl _

theorem sortByKeyDesc_perm {α : Type} (key : α → ℚ) (l : List α) :
    List.Perm (sortByKeyDesc key l) l := by
  induction l with
  | nil => exact List.Perm.refl _
  | cons x xs ih =>
    exact List.Perm.trans (insertDesc_perm key x (sortByKeyDesc key xs))
      (List.Perm.cons x ih)

theorem insertAsc_sorted {α : Type} (key : α → ℚ) (x : α) (l : List α)
    (h : l.Pairwise fun a b => key a ≤ key b) :
    (insertAsc key x l).Pairwise fun a b => key a ≤ key b := by
  induction l with
  | nil => exact List.pairwise_singleton _ _
  | cons y ys ih =>
    rcases List.pairwise_cons.mp h with ⟨hy, hys⟩
    unfold insertAsc
    split_ifs with hkey
    · refine List.pairwise_cons.mpr ⟨?_, ih hys⟩
      intro b hb
      rcases List.mem_cons.mp ((insertAsc_perm key x ys).mem_iff.mp hb) with hbx | hbys
      · exact hbx ▸ le_of_lt hkey
      · exact hy b hbys
    · refine List.pairwise_cons.mpr ⟨?_, h⟩
      intro b hb
      rcases List.mem_cons.mp hb with hby | hbys
      · exact hby ▸ le_of_not_lt hkey
      · exact le_trans (le_of_not_lt hkey) (hy b hbys)

theorem sortByKeyAsc_sorted {α : Type} (key : α → ℚ) (l : List α) :
    (sortByKeyAsc key l).Pairwise fun a b => key a ≤ key b := by
  induction l with
  | nil => exact List.Pairwise.nil
  | cons x xs ih => exact insertAsc_sorted key x _ ih

theorem insertDesc_sorted {α : Type} (key : α → ℚ) (x : α) (l : List α)
    (h : l.Pairwise fun a b => key b ≤ key a) :
    (insertDesc key x l).Pairwise fun a b => key b ≤ key a := by
  induction l with
  | nil => exact List.pairwise_singleton _ _
  | cons y ys ih =>
    rcases List.pairwise_cons.mp h with ⟨hy, hys⟩
    unfold insertDesc
    split_ifs with hkey
    · refine List.pairwise_cons.mpr ⟨?_, ih hys⟩
      intro b hb
      rcases List.mem_cons.mp ((insertDesc_perm key x ys).mem_iff.mp hb) with hbx | hbys
      · exact hbx ▸ le_of_lt hkey
      · exact hy b hbys
    · refine List.pairwise_cons.mpr ⟨?_, h⟩
      intro b hb
      rcases List.mem_cons.mp hb with hby | hbys
      · exact hby ▸ le_of_not_lt hkey
      · exact le_trans (hy b hbys) (le_of_not_lt hkey)

theorem sortByKeyDesc_sorted {α : Type} (key : α → ℚ) (l : List α) :
    (sortByKeyDesc key l).Pairwise fun a b => key b ≤ key a := by
  induction l with
  | nil => exact List.Pairwise.nil
  | cons x xs ih => exact insertDesc_sorted key x _ ih

/-! ### Theorems -/

theorem qsign_hundred (x : ℚ) : qsign (100 * x) = qsign x := by
  unfold qsign
  have h1 : 0 < 100 * x ↔ 0 < x := by constructor <;> intro h <;> nlinarith
  have h2 : 100 * x < 0 ↔ x < 0 := by constructor <;> intro h <;> nlinarith
  simp only [h1, h2]

theorem alignContribs_eq_claim (entries : List (String × BMetric)) (label : String)
    (b : ℚ) (h : ∀ e ∈ entries, e.2.changePercent = 100 * e.2.netChange) :
    alignContribs entries label b = alignClaimContribs entries label b := by
  unfold alignContribs alignClaimContribs
  refine List.filterMap_congr fun e he => ?_
  rw [h e he, qsign_hundred]

/-- Claim C5: for every (symbol, timeframe) entry, `applyAlignment` writes
exactly the claim's formula: with non-zero base sign `sign(netChange)`,
`align = clamp((sum + 0.5·N)/(1.5·N), 0, 1)` over the N other timeframes with
non-zero `sign(netChange)` (+1 on agreement, −0.5 otherwise), and
`align = 0.5` with no comparisons or zero base sign.  The hypothesis records
the pipeline invariant `changePercent = 100 · netChange` from
`calculateTimeframeMetrics`. -/
theorem applyAlignment_matches_claim (entries : List (String × BMetric))
    (h : ∀ e ∈ entries, e.2.changePercent = 100 * e.2.netChange) :
    applyAlignment entries =
      entries.map fun e =>
        (e.1, { e.2 with align := some (alignClaimFormula entries e.1 e.2) }) := by
  unfold applyAlignment
  refine List.map_congr_left fun e he => ?_
  have hbase : qsign e.2.changePercent = qsign e.2.netChange := by
    rw [h e he, qsign_hundred]
  have hcontribs := alignContribs_eq_claim entries e.1 (qsign e.2.netChange) h
  unfold alignFor alignClaimFormula
  rw [hbase, hcontribs]
  by_cases hb : qsign e.2.netChange = 0
  · simp [hb]
  · simp [hb]

/-- Witness for `applyAlignment_matches_claim` (scenario S1: one timeframe
with +2% net change, the other with 0% net change). -/
theorem applyAlignment_matches_claim_witness :
    applyAlignment alignWitnessEntries =
      alignWitnessEntries.map fun e =>
        (e.1, { e.2 with
          align := some (alignClaimFormula alignWitnessEntries e.1 e.2) }) :=
  applyAlignment_matches_claim alignWitnessEntries (by
    intro e he
    rcases List.mem_cons.mp he with h1 | h2
    · rw [h1]; norm_num [alignWitnessMetricA]
    · rcases List.mem_cons.mp h2 with h1 | h1
      · rw [h1]; norm_num [alignWitnessMetricB]
      · exact absurd h1 (List.not_mem_nil e))

theorem mkEntry_scoreMetric_final (sigm : ℚ → ℚ) (vs : VolStats) (sym : String)
    (lp liq : ℚ) (m : BMetric) :
    (mkMoversEntry sym lp liq (scoreMetric sigm vs liq m)).scores.final =
      clamp (finalCoreWeight *
          (mkMoversEntry sym lp liq (scoreMetric sigm vs liq m)).scores.core +
        (1 - finalCoreWeight) *
          (mkMoversEntry sym lp liq (scoreMetric sigm vs liq m)).scores.confirm -
        (mkMoversEntry sym lp liq (scoreMetric sigm vs liq m)).scores.liquidityPenalty)
        0 1 := rfl

/-- Claim C4: every emitted movers entry satisfies
`finalScore = clamp(0.67·core + 0.33·confirm − liquidityPenalty, 0, 1)`, and
hence `finalScore ∈ [0, 1]`.  The statement quantifies over the sigmoid
oracle and volume statistics, so it covers every run of the scoring pass. -/
theorem moversEntry_finalScore (sigm : ℚ → ℚ) (stats : String → VolStats)
    (dataList : List SymbolData) (label : String) (entry : MoversEntry)
    (hmem : entry ∈ entriesForLabel sigm stats dataList label) :
    entry.scores.final =
      clamp (67/100 * entry.scores.core + 33/100 * entry.scores.confirm -
        entry.scores.liquidityPenalty) 0 1 ∧
    0 ≤ entry.scores.final ∧ entry.scores.final ≤ 1 := by
  rcases List.mem_filterMap.mp hmem with ⟨sd, _, hparse⟩
  unfold entryForSymbol at hparse
  obtain ⟨m, _, hE⟩ := Option.map_eq_some'.mp hparse
  subst hE
  have hfin := mkEntry_scoreMetric_final sigm (stats label) sd.symbol sd.lastPrice
    (clamp sd.liquidityPenalty 0 1) m
  have hweights : (1 : ℚ) - finalCoreWeight = 33/100 := by norm_num [finalCoreWeight]
  have hcw : finalCoreWeight = 67/100 := rfl
  rw [hweights, hcw] at hfin
  refine ⟨hfin, ?_, ?_⟩
  · rw [hfin]; exact le_clamp _ _ _ (by norm_num)
  · rw [hfin]; exact clamp_le _ _ _ (by norm_num)

/-- Witness for `moversEntry_finalScore` at a concrete one-symbol run. -/
theorem moversEntry_finalScore_witness :
    c4entry.scores.final =
      clamp (67/100 * c4entry.scores.core + 33/100 * c4entry.scores.confirm -
        c4entry.scores.liquidityPenalty) 0 1 ∧
    0 ≤ c4entry.scores.final ∧ c4entry.scores.final ≤ 1 :=
  moversEntry_finalScore c4sigm c4stats c4data "10m" c4entry (by
    simp [entriesForLabel, entryForSymbol, c4data, c4symbolData, c4entry, List.lookup])

/-- Claim C9: when at least one symbol survives per-symbol processing, the
movers result has a snapshot for each of the four configured timeframes (with
empty gainer/loser lists for timeframes without qualifying entries); when the
universe is empty or every symbol is dropped, the result map is completely
empty. -/
theorem getTopMovers_snapshot_totality (sigm sqrtFn : ℚ → ℚ)
    (univ : List String) (fetchData : String → Option SymbolData) :
    (univ.filterMap fetchData = [] →
      getTopMoversModel sigm sqrtFn univ fetchData = []) ∧
    (univ.filterMap fetchData ≠ [] →
      (getTopMoversModel sigm sqrtFn univ fetchData).map Prod.fst =
        moversTimeframeLabels ∧
      ∀ p ∈ getTopMoversModel sigm sqrtFn univ fetchData,
        p.2.timeframe = p.1 ∧
        (entriesForLabel sigm (pipelineStats sqrtFn (univ.filterMap fetchData))
            (univ.filterMap fetchData) p.1 = [] →
          p.2.topGainers = [] ∧ p.2.topLosers = [])) := by
  constructor
  · intro h
    cases hu : univ.isEmpty with
    | true => simp [getTopMoversModel, hu]
    | false => simp [getTopMoversModel, hu, h]
  · intro hne
    have hu : univ.isEmpty = false := by
      cases hemp : univ.isEmpty
      · rfl
      · rw [List.isEmpty_iff.mp hemp] at hne
        exact absurd rfl hne
    have hd : (univ.filterMap fetchData).isEmpty = false := by
      cases hemp : (univ.filterMap fetchData).isEmpty
      · rfl
      · exact absurd (List.isEmpty_iff.mp hemp) hne
    constructor
    · simp [getTopMoversModel, hu, hd, moversTimeframeLabels]
    · intro p hp
      simp only [getTopMoversModel, hu, hd, Bool.false_eq_true, if_false,
        List.mem_map] at hp
      obtain ⟨label, _, hpe⟩ := hp
      subst hpe
      constructor
      · unfold snapshotForLabel
        dsimp only
        split_ifs <;> rfl
      · intro hempty
        unfold snapshotForLabel
        dsimp only
        rw [hempty]
        exact ⟨rfl, rfl⟩

/-- Witness for `getTopMovers_snapshot_totality`: a single surviving symbol
with only a 10m metric yields all four snapshots. -/
theorem getTopMovers_snapshot_totality_witness :
    (["BTCUSDT"].filterMap c9fetch ≠ [] →
      (getTopMoversModel c4sigm c4sigm ["BTCUSDT"] c9fetch).map Prod.fst =
        moversTimeframeLabels ∧
      ∀ p ∈ getTopMoversModel c4sigm c4sigm ["BTCUSDT"] c9fetch,
        p.2.timeframe = p.1 ∧
        (entriesForLabel c4sigm
            (pipelineStats c4sigm (["BTCUSDT"].filterMap c9fetch))
            (["BTCUSDT"].filterMap c9fetch) p.1 = [] →
          p.2.topGainers = [] ∧ p.2.topLosers = [])) ∧
    (["BTCUSDT"].filterMap c9fetch ≠ []) :=
  ⟨(getTopMovers_snapshot_totality c4sigm c4sigm ["BTCUSDT"] c9fetch).2,
    by simp [c9fetch]⟩

/-- Claim C7 counterexample: with tradable symbols A, B, C and a volume map
containing only A, the selection is ["AUSDT", "BUSDT"] — it contains a symbol
with no entry in the 24h volume map, so the selector does not intersect the
tradable set with the volume map (an intersection could only ever select
symbols present in the map). -/
theorem topVolume_no_intersection_counterexample :
    (topVolumeRefresh 0 ["AUSDT", "BUSDT", "CUSDT"] [("AUSDT", 10)]).1 =
      ["AUSDT", "BUSDT"] ∧
    List.lookup "BUSDT" [("AUSDT", (10 : ℚ))] = none := by
  constructor
  · decide
  · rfl

theorem sortByKeyDesc_length {α : Type} (key : α → ℚ) (l : List α) :
    (sortByKeyDesc key l).length = l.length :=
  (sortByKeyDesc_perm key l).length_eq

theorem rankedSymbols_length (tradable : List String) (volumes : List (String × ℚ)) :
    (rankedSymbols tradable volumes).length = tradable.length := by
  unfold rankedSymbols
  rw [sortByKeyDesc_length, List.length_map]

/-- Claim C7 (amended): on refresh the selector ranks all tradable perpetual
USDT symbols by 24h quote volume — symbols missing from the volume map
default to volume 0 instead of being intersected away — sorts descending and
selects the top `min(80, max(1, ceil(total/2)))` (= `min(80, ceil(total/2))`
for a non-empty universe); an empty tradable set returns an empty selection
which is still cached for the 12-hour TTL. -/
theorem topVolumeRefresh_spec (now : ℚ) (tradable : List String)
    (volumes : List (String × ℚ)) :
    (tradable = [] →
      topVolumeRefresh now tradable volumes =
        ([], ⟨[], 0, now + volumeRefreshInterval⟩)) ∧
    (tradable ≠ [] →
      (topVolumeRefresh now tradable volumes).1 =
        ((rankedSymbols tradable volumes).take (topCountFor tradable.length)).map
          Prod.fst ∧
      (topVolumeRefresh now tradable volumes).1.length =
        min 80 (max 1 ((tradable.length + 1) / 2)) ∧
      (topVolumeRefresh now tradable volumes).2 =
        ⟨(topVolumeRefresh now tradable volumes).1, tradable.length,
          now + volumeRefreshInterval⟩ ∧
      ((topVolumeRefresh now tradable volumes).1.map
          fun s => (volumes.lookup s).getD 0).Pairwise (· ≥ ·) ∧
      ∀ s ∈ (topVolumeRefresh now tradable volumes).1, s ∈ tradable) := by
  constructor
  · intro h
    subst h
    rfl
  · intro hne
    have hlen : tradable.length ≠ 0 := fun hc => hne (List.length_eq_zero.mp hc)
    have hsel : topVolumeRefresh now tradable volumes =
        (((rankedSymbols tradable volumes).take (topCountFor tradable.length)).map
          Prod.fst,
         ⟨((rankedSymbols tradable volumes).take (topCountFor tradable.length)).map
          Prod.fst, tradable.length, now + volumeRefreshInterval⟩) := by
      unfold topVolumeRefresh
      rw [if_neg hlen]
    have hcount : topCountFor tradable.length ≤ tradable.length := by
      unfold topCountFor maxSelectedSymbols
      have h1 : (tradable.length + 1) / 2 ≤ tradable.length := by omega
      have h2 : 1 ≤ tradable.length := by omega
      omega
    refine ⟨by rw [hsel], ?_, by rw [hsel], ?_, ?_⟩
    · rw [hsel]
      simp only [List.length_map, List.length_take, rankedSymbols_length]
      unfold topCountFor maxSelectedSymbols
      omega
    · rw [hsel]
      simp only
      rw [List.map_map, List.pairwise_map]
      have hsorted := sortByKeyDesc_sorted Prod.snd
        (tradable.map fun s => (s, (volumes.lookup s).getD 0))
      have htake : ((rankedSymbols tradable volumes).take
          (topCountFor tradable.length)).Pairwise
            fun a b => (Prod.snd b : ℚ) ≤ Prod.snd a :=
        List.Pairwise.take hsorted
      refine List.Pairwise.imp_of_mem ?_ htake
      intro a b ha hb hab
      have hmema : a ∈ rankedSymbols tradable volumes := List.mem_of_mem_take ha
      have hmemb : b ∈ rankedSymbols tradable volumes := List.mem_of_mem_take hb
      have hfa : (volumes.lookup a.1).getD 0 = a.2 := by
        rcases List.mem_map.mp ((sortByKeyDesc_perm _ _).mem_iff.mp hmema) with
          ⟨s, _, hs⟩
        rw [← hs]
      have hfb : (volumes.lookup b.1).getD 0 = b.2 := by
        rcases List.mem_map.mp ((sortByKeyDesc_perm _ _).mem_iff.mp hmemb) with
          ⟨s, _, hs⟩
        rw [← hs]
      show ((volumes.lookup a.1).getD 0 : ℚ) ≥ (volumes.lookup b.1).getD 0
      rw [hfa, hfb]
      exact hab
    · intro s hs
      rw [hsel] at hs
      simp only at hs
      rcases List.mem_map.mp hs with ⟨p, hp, hps⟩
      have hmem : p ∈ rankedSymbols tradable volumes := List.mem_of_mem_take hp
      rcases List.mem_map.mp ((sortByKeyDesc_perm _ _).mem_iff.mp hmem) with
        ⟨t, ht, hts⟩
      rw [← hps, ← hts]
      exact ht

/-- Witness for `topVolumeRefresh_spec` at the concrete three-symbol input. -/
theorem topVolumeRefresh_spec_witness :
    topVolumeRefresh 0 [] [("AUSDT", (10 : ℚ))] =
      ([], ⟨[], 0, 0 + volumeRefreshInterval⟩) ∧
    (topVolumeRefresh 0 ["AUSDT", "BUSDT", "CUSDT"] [("AUSDT", 10)]).1.length =
      min 80 (max 1 ((["AUSDT", "BUSDT", "CUSDT"].length + 1) / 2)) :=
  ⟨(topVolumeRefresh_spec 0 [] [("AUSDT", 10)]).1 rfl,
    ((topVolumeRefresh_spec 0 ["AUSDT", "BUSDT", "CUSDT"] [("AUSDT", 10)]).2
      (by simp)).2.1⟩

/-- Claim C8 counterexample: two identical valid rows with the same
`openTime` both survive — the fetcher sorts but does not dedupe, so the
resulting `openTime` sequence is not strictly increasing. -/
theorem fetchCandles_duplicate_counterexample :
    (fetchOneMinuteCandles [dupKlineRow, dupKlineRow]).map Candle.openTime =
      [5, 5] ∧
    ¬((fetchOneMinuteCandles [dupKlineRow, dupKlineRow]).map
        Candle.openTime).Pairwise (· < ·) := by
  constructor
  · decide
  · decide

theorem filterMap_length_filter_isSome {α β : Type} (f : α → Option β)
    (l : List α) :
    (l.filterMap f).length = (l.filter fun a => (f a).isSome).length := by
  induction l with
  | nil => rfl
  | cons a as ih =>
    simp only [List.filterMap_cons, List.filter_cons]
    cases ha : f a with
    | none => simpa [ha] using ih
    | some b => simpa [ha] using ih

/-- Claim C8 (amended): every kline row with a missing or non-finite numeric
field is dropped (never zero-filled) — each returned candle comes from some
fully-parsed row and the count equals the number of parseable rows — and the
buffer is sorted ascending (not necessarily strictly) by `openTime`;
duplicate `openTime`s are retained. -/
theorem fetchOneMinuteCandles_spec (rows : List (List (Option ℚ))) :
    ((fetchOneMinuteCandles rows).map Candle.openTime).Pairwise (· ≤ ·) ∧
    (∀ c ∈ fetchOneMinuteCandles rows, ∃ row ∈ rows, parseKlineRow row = some c) ∧
    (fetchOneMinuteCandles rows).length =
      (rows.filter fun r => (parseKlineRow r).isSome).length := by
  refine ⟨?_, ?_, ?_⟩
  · rw [List.pairwise_map]
    exact sortByKeyAsc_sorted Candle.openTime _
  · intro c hc
    unfold fetchOneMinuteCandles at hc
    exact List.mem_filterMap.mp
      ((sortByKeyAsc_perm Candle.openTime (rows.filterMap parseKlineRow)).mem_iff.mp hc)
  · unfold fetchOneMinuteCandles
    rw [(sortByKeyAsc_perm Candle.openTime (rows.filterMap parseKlineRow)).length_eq]
    exact filterMap_length_filter_isSome parseKlineRow rows

/-- Witness for `fetchOneMinuteCandles_spec`: the duplicate-row input, with
an explicit provenance fact obtained from the theorem. -/
theorem fetchOneMinuteCandles_spec_witness :
    ((fetchOneMinuteCandles [dupKlineRow]).map Candle.openTime).Pairwise (· ≤ ·) ∧
    (fetchOneMinuteCandles [dupKlineRow]).length =
      ([dupKlineRow].filter fun r => (parseKlineRow r).isSome).length :=
  ⟨(fetchOneMinuteCandles_spec [dupKlineRow]).1,
    (fetchOneMinuteCandles_spec [dupKlineRow]).2.2⟩

/-- One unfolding step of the retry loop. -/
theorem retryGo_succ {T : Type} (outcomes : ℕ → Except ReqError T)
    (n made delay : ℕ) (ds : List ℕ) :
    retryGo outcomes (n + 1) made delay ds =
      (match outcomes made with
      | .ok v => ⟨.ok v, made + 1, ds⟩
      | .error e =>
        if ¬shouldRetry e then ⟨.error e, made + 1, ds⟩
        else if n = 0 then ⟨.error e, made + 1, ds⟩
        else retryGo outcomes n (made + 1) (min (delay * 2) maxRetryBackoff)
          (ds ++ [delay])) := rfl

/-- Claim C6: transient failures (network, 5xx, 429) retry up to 5 attempts
with back-off doubling from 500 ms capped at 4000 ms; an HTTP status in
[400, 500) other than 429 is surfaced immediately without retry; after the
5th failed attempt the last error is thrown; 2 transient failures followed
by a success make exactly 3 attempts with total sleep 1500 ms ≥ 1500 ms. -/
theorem requestWithRetry_policy :
    (∀ (T : Type) (outcomes : ℕ → Except ReqError T) (s : ℕ),
      400 ≤ s → s < 500 → s ≠ 429 → outcomes 0 = .error (.http s) →
      requestWithRetry outcomes = ⟨.error (.http s), 1, []⟩) ∧
    (∀ (T : Type) (outcomes : ℕ → Except ReqError T) (e0 e1 e2 e3 e4 : ReqError),
      shouldRetry e0 = true → shouldRetry e1 = true → shouldRetry e2 = true →
      shouldRetry e3 = true → shouldRetry e4 = true →
      outcomes 0 = .error e0 → outcomes 1 = .error e1 → outcomes 2 = .error e2 →
      outcomes 3 = .error e3 → outcomes 4 = .error e4 →
      requestWithRetry outcomes = ⟨.error e4, 5, [500, 1000, 2000, 4000]⟩) ∧
    (∀ (T : Type) (outcomes : ℕ → Except ReqError T) (v : T) (e0 e1 : ReqError),
      shouldRetry e0 = true → shouldRetry e1 = true →
      outcomes 0 = .error e0 → outcomes 1 = .error e1 → outcomes 2 = .ok v →
      requestWithRetry outcomes = ⟨.ok v, 3, [500, 1000]⟩ ∧
      1500 ≤ (requestWithRetry outcomes).delays.sum) ∧
    (shouldRetry .network = true ∧ shouldRetry (.http 429) = true ∧
      ∀ s, 500 ≤ s → shouldRetry (.http s) = true) := by
  refine ⟨?_, ?_, ?_, rfl, rfl, ?_⟩
  · intro T outcomes s h4 h5 h429 h0
    have hns : shouldRetry (.http s) = false := by
      show (if s ≠ 0 ∧ s < 500 ∧ s ≠ 429 then false else true) = false
      rw [if_pos ⟨by omega, h5, h429⟩]
    show retryGo outcomes (4 + 1) 0 500 [] = _
    rw [retryGo_succ, h0]
    simp [hns]
  · intro T outcomes e0 e1 e2 e3 e4 hr0 hr1 hr2 hr3 hr4 h0 h1 h2 h3 h4
    show retryGo outcomes (4 + 1) 0 500 [] = _
    rw [retryGo_succ, h0]
    simp only [hr0, not_true, if_neg, ite_false, ite_true]
    norm_num [maxRetryBackoff]
    show retryGo outcomes (3 + 1) 1 1000 [500] = _
    rw [retryGo_succ, h1]
    simp only [hr1]
    norm_num [maxRetryBackoff]
    show retryGo outcomes (2 + 1) 2 2000 [500, 1000] = _
    rw [retryGo_succ, h2]
    simp only [hr2]
    norm_num [maxRetryBackoff]
    show retryGo outcomes (1 + 1) 3 4000 [500, 1000, 2000] = _
    rw [retryGo_succ, h3]
    simp only [hr3]
    norm_num [maxRetryBackoff]
    show retryGo outcomes (0 + 1) 4 4000 [500, 1000, 2000, 4000] = _
    rw [retryGo_succ, h4]
    simp [hr4]
  · intro T outcomes v e0 e1 hr0 hr1 h0 h1 h2
    have hres : requestWithRetry outcomes = ⟨.ok v, 3, [500, 1000]⟩ := by
      show retryGo outcomes (4 + 1) 0 500 [] = _
      rw [retryGo_succ, h0]
      simp only [hr0]
      norm_num [maxRetryBackoff]
      show retryGo outcomes (3 + 1) 1 1000 [500] = _
      rw [retryGo_succ, h1]
      simp only [hr1]
      norm_num [maxRetryBackoff]
      show retryGo outcomes (2 + 1) 2 2000 [500, 1000] = _
      rw [retryGo_succ, h2]
    refine ⟨hres, ?_⟩
    rw [hres]
    norm_num
  · intro s h5
    show (if s ≠ 0 ∧ s < 500 ∧ s ≠ 429 then false else true) = true
    rw [if_neg (by omega)]

/-- Witness for `requestWithRetry_policy`: the two-failures-then-success run
performs exactly 3 attempts with 1500 ms of accumulated back-off. -/
theorem requestWithRetry_policy_witness :
    requestWithRetry c6outcomes = ⟨.ok (), 3, [500, 1000]⟩ ∧
    1500 ≤ (requestWithRetry c6outcomes).delays.sum :=
  requestWithRetry_policy.2.2.1 Unit c6outcomes () .network .network rfl rfl
    (by simp [c6outcomes]) (by simp [c6outcomes]) (by simp [c6outcomes])

/-- Claim C10: if the order response yields no parseable positive quantity
from `executedQty ?? origQty`, or yields no parseable price while the
candidate's `lastPrice` is zero, `evaluateCandidate` returns without placing
a stop-loss and without recording managed state (result `none`).  The
hypothesis `hq` records that quantity fields parse to non-negative values. -/
theorem evaluateCandidate_skips_on_bad_fill (direction : Direction) (kSl : ℚ)
    (childAtrValue parentAtrValue : Option ℚ) (cleanParent gateChild : ℚ)
    (parentMinutes childMinutes now : ℚ) (r : OrderResponse) (lastPrice : ℚ)
    (hq : ∀ q, parsedQuantity r = some q → 0 ≤ q)
    (h : (¬∃ q, parsedQuantity r = some q ∧ 0 < q) ∨
      (extractNumber (parsedPrice r) = 0 ∧ lastPrice = 0)) :
    evaluateCandidateTail direction kSl childAtrValue parentAtrValue cleanParent
      gateChild parentMinutes childMinutes now r lastPrice = none := by
  unfold evaluateCandidateTail entryDetails
  rcases h with hq0 | ⟨hp0, hl0⟩
  · have hqz : extractNumber (parsedQuantity r) = 0 := by
      cases hpq : parsedQuantity r with
      | none => rfl
      | some q =>
        have h1 := hq q hpq
        have h2 : ¬0 < q := fun hpos => hq0 ⟨q, hpq, hpos⟩
        have : q = 0 := le_antisymm (le_of_not_lt h2) h1
        simp [extractNumber, this]
    rw [hqz]
    simp
  · rw [hp0, hl0]
    simp

/-- Witness for `evaluateCandidate_skips_on_bad_fill`: `executedQty` present
but unparseable, so `origQty` is never consulted and the parsed quantity is
`NaN → 0`. -/
theorem evaluateCandidate_skips_on_bad_fill_witness :
    evaluateCandidateTail Direction.long 2 (some 1) (some 2) (1/4) (1/2) 30 10 0
      c10response 100 = none :=
  evaluateCandidate_skips_on_bad_fill Direction.long 2 (some 1) (some 2) (1/4)
    (1/2) 30 10 0 c10response 100
    (by intro q hq; simp [parsedQuantity, jsCoalesce, c10response] at hq)
    (Or.inl (by
      rintro ⟨q, hq, -⟩
      simp [parsedQuantity, jsCoalesce, c10response] at hq))

end Shortshake
